import Mathlib

/-!
Verification of a small Flask command-execution service (`src/app.py`).

The whole program is:

  app = Flask(__name__)

  @app.route('/', methods=['POST'])
  def run_command():
      data = request.get_json()
      cmd = data.get("cmd")
      result = os.popen(cmd).read()
      return {"output": result}, 200

  if __name__ == '__main__':
      app.run(host='0.0.0.0', port=3000)

We embed the handler shallowly: the parsed JSON body is an association
list of Python values, the host shell is an oracle giving each command
line its stdout text, stderr text and exit status, and CPython's
`os.popen` is modelled faithfully: it raises `TypeError` when its
argument is not a `str`, and it pipes ONLY the child's standard output
(stderr is inherited by the server process, not captured).
Flask turns an exception escaping the handler into a 500 response.
-/

/-- A Python value as produced by `request.get_json()` for a JSON body. -/
inductive PyValue where
  | none
  | bool (b : Bool)
  | int (n : Int)
  | str (s : String)
  | list (l : List PyValue)
  deriving Repr

/-- `True` exactly on Python `str` values (the `isinstance(cmd, str)` test
inside CPython `os.popen`). -/
def PyValue.isStr : PyValue → Bool
  | .str _ => true
  | _ => false

/-- The parsed JSON object: Python `dict` with string keys. -/
abbrev PyDict := List (String × PyValue)

/-- Python `data.get(k)`: the value stored under `k`, or `None` when the
key is absent. -/
def dictGet (data : PyDict) (k : String) : PyValue :=
  match data.find? (fun p => p.1 == k) with
  | some p => p.2
  | Option.none => PyValue.none

/-- An exception escaping the handler. -/
inductive PyError where
  | typeError (msg : String)
  deriving Repr

/-- Behaviour of the host operating system's default command shell on a
given command line: what the spawned process writes to its standard
output, what it writes to its standard error, and its exit status.
The handler is parametric in this oracle. -/
structure Shell where
  stdout : String → String
  stderr : String → String
  exitCode : String → Nat

/-- CPython `os.popen(cmd)` up to the point where the shell is spawned:
it raises `TypeError` unless `cmd` is a `str`; otherwise the raw,
unmodified string is the command line handed to the default shell. -/
def osPopen (cmd : PyValue) : Except PyError String :=
  match cmd with
  | .str s => .ok s
  | _ => .error (.typeError "invalid cmd type")

/-- `os.popen(cmd).read()`: the text read from the pipe. The pipe is
connected to the child's standard output only; standard error is not
redirected into it. -/
def popenRead (sh : Shell) (cmd : PyValue) : Except PyError String :=
  (osPopen cmd).map sh.stdout

/-- The command lines actually handed to the system shell when `os.popen`
is called on `cmd` (empty when `os.popen` raises before spawning). -/
def popenSpawned (cmd : PyValue) : List String :=
  match osPopen cmd with
  | .ok s => [s]
  | .error _ => []

/-- An HTTP response: status code and JSON-object body. (Flask's default
error pages are abstracted as an empty body; the claims only constrain
their status class.) -/
structure HttpResponse where
  status : Nat
  body : List (String × PyValue)
  deriving Repr

/-- The handler `run_command` of `src/app.py`: read `cmd` out of the
parsed body with `.get`, run `os.popen(cmd).read()`, and return
`{"output": result}` with status 200. An exception from `os.popen`
propagates. -/
def run_command (sh : Shell) (data : PyDict) : Except PyError HttpResponse :=
  let cmd := dictGet data "cmd"
  (popenRead sh cmd).map (fun result => ⟨200, [("output", PyValue.str result)]⟩)

/-- One registered route: URL rule and allowed methods. -/
structure Route where
  path : String
  methods : List String
  deriving Repr, DecidableEq

/-- The app's route table: the single decorator
`@app.route('/', methods=['POST'])`. -/
def appRoutes : List Route := [⟨"/", ["POST"]⟩]

/-- An inbound HTTP request with an already-parsed JSON body. -/
structure Request where
  method : String
  path : String
  body : PyDict

/-- Flask's dispatch around the handler: unknown path gives 404, known
path with a method not in the route's list gives 405, and an exception
escaping the handler becomes a 500 internal-server-error response. -/
def flaskDispatch (sh : Shell) (routes : List Route) (req : Request) : HttpResponse :=
  match routes.find? (fun rt => rt.path == req.path) with
  | some rt =>
    if rt.methods.contains req.method then
      match run_command sh req.body with
      | .ok resp => resp
      | .error _ => ⟨500, []⟩
    else ⟨405, []⟩
  | Option.none => ⟨404, []⟩

/-- The command lines handed to the system shell while serving one
request (empty when the request never reaches a shell spawn). -/
def requestSpawned (routes : List Route) (req : Request) : List String :=
  match routes.find? (fun rt => rt.path == req.path) with
  | some rt =>
    if rt.methods.contains req.method then popenSpawned (dictGet req.body "cmd")
    else []
  | Option.none => []

/-- The server's whole process-wide state: the module-level `app` object,
i.e. its route table. `src/app.py` has no other module-level binding
that the handler reads or writes. -/
structure ServerState where
  routes : List Route

/-- The state the module builds at import time. -/
def startState : ServerState := ⟨appRoutes⟩

/-- Serving one request: the response, and the server state afterwards.
The handler touches no module-level binding, so the state passes through
unchanged. -/
def serveOne (sh : Shell) (st : ServerState) (req : Request) :
    ServerState × HttpResponse :=
  (st, flaskDispatch sh st.routes req)

/-- Serving a sequence of requests in order, threading the server state. -/
def serve (sh : Shell) (st : ServerState) : List Request → List HttpResponse
  | [] => []
  | req :: reqs =>
    let out := serveOne sh st req
    out.2 :: serve sh out.1 reqs

/-- Host and port of the listening socket. -/
structure ServerConfig where
  host : String
  port : Nat
  deriving Repr

/-- The `app.run(host='0.0.0.0', port=3000)` call of `src/app.py`: both
arguments are literals; the module reads no environment variable and no
file, so the configuration is the same function of any environment. -/
def appRunConfig (_env : List (String × String)) : ServerConfig :=
  ⟨"0.0.0.0", 3000⟩

/-- A standard POSIX shell used for concrete test inputs:
`echo hello` prints `hello\n` to stdout, `exit 1` prints nothing and
exits with status 1, the empty command line prints nothing and exits 0. -/
def stdShell : Shell where
  stdout := fun c => if c = "echo hello" then "hello\n" else ""
  stderr := fun _ => ""
  exitCode := fun c => if c = "exit 1" then 1 else 0

/-- A shell on which some command writes to standard error: the command
line `x` writes `out` to stdout and `err` to stderr. -/
def errShell : Shell where
  stdout := fun _ => "out"
  stderr := fun _ => "err"
  exitCode := fun _ => 0

/-- The value of the `output` field of a response body, when present. -/
def outputField (resp : HttpResponse) : PyValue :=
  dictGet resp.body "output"

/-! ## Helper lemmas shared by the claim theorems -/

/-- Dispatching a POST to `/` runs the handler, turning an escaped
exception into a 500 response. -/
theorem dispatch_root_post (sh : Shell) (data : PyDict) :
    flaskDispatch sh appRoutes ⟨"POST", "/", data⟩ =
      match run_command sh data with
      | .ok resp => resp
      | .error _ => ⟨500, []⟩ := rfl

/-- A POST to `/` spawns exactly what `os.popen` spawns on the extracted
`cmd` value. -/
theorem spawned_root_post (data : PyDict) :
    requestSpawned appRoutes ⟨"POST", "/", data⟩ =
      popenSpawned (dictGet data "cmd") := rfl

/-- Unfolding of the handler body. -/
theorem run_command_eq (sh : Shell) (data : PyDict) :
    run_command sh data =
      (popenRead sh (dictGet data "cmd")).map
        (fun result => ⟨200, [("output", PyValue.str result)]⟩) := rfl

/-- When `cmd` is the string `s`, a POST to `/` answers 200 with the
`output` field holding the shell's stdout text for `s`. -/
theorem dispatch_str_cmd (sh : Shell) (s : String) :
    flaskDispatch sh appRoutes ⟨"POST", "/", [("cmd", PyValue.str s)]⟩ =
      ⟨200, [("output", PyValue.str (sh.stdout s))]⟩ := rfl

/-- Serving one request leaves the server state unchanged: the handler
reads and writes no module-level binding. -/
theorem serveOne_state (sh : Shell) (st : ServerState) (req : Request) :
    (serveOne sh st req).1 = st := rfl

/-! ## Claim theorems -/

/-- Claim C1, counterexample: on a shell where the command line `x`
writes `out` to its standard output and `err` to its standard error,
POSTing the body with cmd `x` returns HTTP 200, but the `output` field
is the stdout text alone, not the concatenation of the stdout and
stderr texts — `os.popen` never captures stderr. -/
theorem c1_stderr_not_captured :
    (flaskDispatch errShell appRoutes ⟨"POST", "/", [("cmd", PyValue.str "x")]⟩).status = 200 ∧
    errShell.stderr "x" = "err" ∧
    outputField (flaskDispatch errShell appRoutes ⟨"POST", "/", [("cmd", PyValue.str "x")]⟩) =
      PyValue.str "out" ∧
    PyValue.str "out" ≠
      PyValue.str (errShell.stdout "x" ++ errShell.stderr "x") := by
  refine ⟨rfl, rfl, rfl, fun h => ?_⟩
  injection h with h1
  exact absurd h1 (by decide)

/-- Claim C1, amended: for every string `s`, POSTing a body whose `cmd`
is `s` returns HTTP 200 with the `output` field equal to the standard
output text alone of the shell running `s` (stderr is not captured). -/
theorem c1_output_is_stdout (sh : Shell) (s : String) :
    flaskDispatch sh appRoutes ⟨"POST", "/", [("cmd", PyValue.str s)]⟩ =
      ⟨200, [("output", PyValue.str (sh.stdout s))]⟩ := rfl

/-- Claim C2, counterexample: with a body that has no `cmd` key, the
`.get` access returns None without raising, nothing is ever handed to
the shell, and the response is 500 — not a 200 carrying a shell-level
error message in `output`. -/
theorem c2_nothing_reaches_shell :
    dictGet [] "cmd" = PyValue.none ∧
    (flaskDispatch stdShell appRoutes ⟨"POST", "/", []⟩).status = 500 ∧
    requestSpawned appRoutes ⟨"POST", "/", []⟩ = [] :=
  ⟨rfl, rfl, rfl⟩

/-- Claim C2, amended: when the POSTed body has no `cmd` key, `.get`
returns None (it does not raise); passing None to `os.popen` raises an
unhandled TypeError before any shell is spawned, so the request is
surfaced as a 500-class response and no command runs. -/
theorem c2_missing_cmd (sh : Shell) (data : PyDict)
    (h : dictGet data "cmd" = PyValue.none) :
    flaskDispatch sh appRoutes ⟨"POST", "/", data⟩ = ⟨500, []⟩ ∧
    requestSpawned appRoutes ⟨"POST", "/", data⟩ = [] := by
  constructor
  · rw [dispatch_root_post, run_command_eq, h]
    rfl
  · rw [spawned_root_post, h]
    rfl

/-- Claim C2, witness at the concrete body with no keys at all. -/
theorem c2_missing_cmd_witness :
    flaskDispatch stdShell appRoutes ⟨"POST", "/", []⟩ = ⟨500, []⟩ ∧
    requestSpawned appRoutes ⟨"POST", "/", []⟩ = [] :=
  c2_missing_cmd stdShell [] rfl

/-- Claim C3: a non-zero exit status gets no special handling. The
response never depends on the exit status function of the shell, the
captured output is returned unchanged with HTTP 200, and on a shell
where `exit 1` prints nothing the body with cmd `exit 1` yields
HTTP 200 with empty `output`. -/
theorem c3_exit_status_ignored (sh : Shell) (s : String) (ec : String → Nat)
    (h : sh.stdout "exit 1" = "") :
    flaskDispatch ⟨sh.stdout, sh.stderr, ec⟩ appRoutes
        ⟨"POST", "/", [("cmd", PyValue.str s)]⟩ =
      ⟨200, [("output", PyValue.str (sh.stdout s))]⟩ ∧
    flaskDispatch sh appRoutes ⟨"POST", "/", [("cmd", PyValue.str "exit 1")]⟩ =
      ⟨200, [("output", PyValue.str "")]⟩ := by
  constructor
  · exact dispatch_str_cmd ⟨sh.stdout, sh.stderr, ec⟩ s
  · rw [dispatch_str_cmd, h]

/-- Claim C3, witness: the standard shell, command `exit 1`, and an
exit-status function making every command fail. -/
theorem c3_exit_status_ignored_witness :
    stdShell.stdout "exit 1" = "" ∧
    flaskDispatch ⟨stdShell.stdout, stdShell.stderr, fun _ => 1⟩ appRoutes
        ⟨"POST", "/", [("cmd", PyValue.str "exit 1")]⟩ =
      ⟨200, [("output", PyValue.str "")]⟩ ∧
    flaskDispatch stdShell appRoutes ⟨"POST", "/", [("cmd", PyValue.str "exit 1")]⟩ =
      ⟨200, [("output", PyValue.str "")]⟩ := by
  have h := c3_exit_status_ignored stdShell "exit 1" (fun _ => 1) rfl
  exact ⟨rfl, by rw [h.1]; rfl, h.2⟩

/-- Claim C4: on a shell where `echo hello` prints `hello` and a
newline, POSTing the body with cmd `echo hello` returns HTTP 200 with
body `output = hello` plus newline. -/
theorem c4_echo_hello (sh : Shell) (h : sh.stdout "echo hello" = "hello\n") :
    flaskDispatch sh appRoutes ⟨"POST", "/", [("cmd", PyValue.str "echo hello")]⟩ =
      ⟨200, [("output", PyValue.str "hello\n")]⟩ := by
  rw [dispatch_str_cmd, h]

/-- Claim C4, witness at the standard shell. -/
theorem c4_echo_hello_witness :
    stdShell.stdout "echo hello" = "hello\n" ∧
    flaskDispatch stdShell appRoutes ⟨"POST", "/", [("cmd", PyValue.str "echo hello")]⟩ =
      ⟨200, [("output", PyValue.str "hello\n")]⟩ :=
  ⟨rfl, c4_echo_hello stdShell rfl⟩

/-- Claim C5: the extracted `cmd` string reaches the shell verbatim —
for every string `s`, the command line spawned is exactly `s`, with no
parsing, escaping, validation or allow-list in between, and the request
is accepted with HTTP 200 whatever the characters of `s`. -/
theorem c5_verbatim_to_shell (sh : Shell) (s : String) :
    requestSpawned appRoutes ⟨"POST", "/", [("cmd", PyValue.str s)]⟩ = [s] ∧
    (flaskDispatch sh appRoutes ⟨"POST", "/", [("cmd", PyValue.str s)]⟩).status = 200 :=
  ⟨rfl, rfl⟩

/-- Claim C6: sequential requests are fully independent — serving a
request list from the start state returns exactly the per-request
dispatch of each request, so response N is a function of request N
alone and the server state never changes. -/
theorem c6_stateless (sh : Shell) (reqs : List Request) :
    serve sh startState reqs = reqs.map (fun req => flaskDispatch sh appRoutes req) := by
  induction reqs with
  | nil => rfl
  | cons r rs ih =>
    simp only [serve, serveOne, List.map]
    rw [ih]
    rfl

/-- Claim C7: the route table holds exactly one route, POST at `/`, and
the success response is HTTP 200 whose JSON body is the single key
`output` carrying the captured text. -/
theorem c7_single_route (sh : Shell) (s : String) :
    appRoutes = [⟨"/", ["POST"]⟩] ∧
    flaskDispatch sh appRoutes ⟨"POST", "/", [("cmd", PyValue.str s)]⟩ =
      ⟨200, [("output", PyValue.str (sh.stdout s))]⟩ :=
  ⟨rfl, dispatch_str_cmd sh s⟩

/-- Claim C8: the listening configuration is `0.0.0.0` (all interfaces)
on the fixed port 3000, whatever the process environment: no
environment-variable or file-based configuration exists. -/
theorem c8_fixed_config (env : List (String × String)) :
    appRunConfig env = ⟨"0.0.0.0", 3000⟩ := rfl

/-- Claim C9: when the `cmd` value is present but not a string, the
spawning call raises an unhandled TypeError: the request fails with a
500-class response and no command is executed. -/
theorem c9_nonstring_cmd (sh : Shell) (data : PyDict)
    (h : (dictGet data "cmd").isStr = false) :
    (flaskDispatch sh appRoutes ⟨"POST", "/", data⟩).status = 500 ∧
    requestSpawned appRoutes ⟨"POST", "/", data⟩ = [] := by
  have ho : osPopen (dictGet data "cmd") = .error (.typeError "invalid cmd type") := by
    cases hc : dictGet data "cmd" <;> simp_all [PyValue.isStr, osPopen]
  constructor
  · rw [dispatch_root_post, run_command_eq]
    simp only [popenRead]
    rw [ho]
    rfl
  · rw [spawned_root_post]
    simp only [popenSpawned]
    rw [ho]

/-- Claim C9, witness: `cmd` bound to the number 7. -/
theorem c9_nonstring_cmd_witness :
    (dictGet [("cmd", PyValue.int 7)] "cmd").isStr = false ∧
    (flaskDispatch stdShell appRoutes ⟨"POST", "/", [("cmd", PyValue.int 7)]⟩).status = 500 ∧
    requestSpawned appRoutes ⟨"POST", "/", [("cmd", PyValue.int 7)]⟩ = [] :=
  ⟨rfl, c9_nonstring_cmd stdShell [("cmd", PyValue.int 7)] rfl⟩

/-- Claim C10: when `cmd` is the empty string, the shell is invoked
with the empty command line; on a shell where that prints nothing, the
response is HTTP 200 with `output` the empty string. -/
theorem c10_empty_cmd (sh : Shell) (h : sh.stdout "" = "") :
    flaskDispatch sh appRoutes ⟨"POST", "/", [("cmd", PyValue.str "")]⟩ =
      ⟨200, [("output", PyValue.str "")]⟩ ∧
    requestSpawned appRoutes ⟨"POST", "/", [("cmd", PyValue.str "")]⟩ = [""] := by
  constructor
  · rw [dispatch_str_cmd, h]
  · rfl

/-- Claim C10, witness at the standard shell. -/
theorem c10_empty_cmd_witness :
    stdShell.stdout "" = "" ∧
    flaskDispatch stdShell appRoutes ⟨"POST", "/", [("cmd", PyValue.str "")]⟩ =
      ⟨200, [("output", PyValue.str "")]⟩ :=
  ⟨rfl, (c10_empty_cmd stdShell rfl).1⟩
